import Mathlib

/-!
Verification of the cpp-generes resource-header generator (src/main.cpp).

Strings and paths are modelled as lists of byte values (`List Nat`); the
contents of a binary resource file are modelled as a list of `char` values
(`List Int`, since the signedness of `char` is implementation defined and the
code narrows through `uint8_t`).  The filesystem and the success of the
output-stream open are modelled abstractly by a `Sys` structure.  Both
preprocessor branches of the source are modelled where they differ: the
C++17 branch uses the throwing overload of
`std::filesystem::create_directory` (single level; on failure a
`filesystem_error` propagates uncaught and terminates the program) and the
legacy branch shells out to `mkdir -p` (recursive, reporting failure
through the exit status of `system`).
-/

/-- Bytes of a string literal, used to write concrete paths and messages. -/
def strBytes (s : String) : List Nat := s.toList.map Char.toNat

/-- C-locale `iscntrl` on an unsigned char value. -/
def iscntrl (c : Nat) : Bool := c < 32 || c == 127

/-- C-locale `ispunct` on an unsigned char value. -/
def ispunct (c : Nat) : Bool :=
  (33 ≤ c && c ≤ 47) || (58 ≤ c && c ≤ 64) || (91 ≤ c && c ≤ 96) || (123 ≤ c && c ≤ 126)

/-- C-locale `toupper` on an unsigned char value. -/
def toupperC (c : Nat) : Nat := if 97 ≤ c && c ≤ 122 then c - 32 else c

/-- `detail::_to_upper`: uppercase every character. -/
def to_upper (s : List Nat) : List Nat := s.map toupperC

/-- `detail::_replace(s, func, value)`: the loop appends `value` for each
character satisfying `func` and the character itself otherwise. -/
def replaceIf (f : Nat → Bool) (v : List Nat) : List Nat → List Nat
  | [] => []
  | c :: cs => (if f c then v else [c]) ++ replaceIf f v cs

/-- `detail::_replace(s, old, value)`: each occurrence of the character `old`
is replaced by `value`, and the search resumes after the inserted text. -/
def replaceChar (old : Nat) (v : List Nat) : List Nat → List Nat
  | [] => []
  | c :: cs => (if c = old then v else [c]) ++ replaceChar old v cs

/-- `detail::_file_name`: the part of the path after the last `/` or `\`
(the whole path when there is no separator). -/
def file_name (p : List Nat) : List Nat :=
  (p.reverse.takeWhile (fun c => !(c == 47 || c == 92))).reverse

/-- `detail::_directory_name`: the part of the path before the last `/` or
`\` separator, empty when there is none. -/
def directory_name (p : List Nat) : List Nat :=
  ((p.reverse.dropWhile (fun c => !(c == 47 || c == 92))).drop 1).reverse

/-- `detail::_ends_with`: suffix test by size comparison and substring
comparison, as in the pre-C++20 branch (the C++20 branch is equivalent). -/
def ends_with (s v : List Nat) : Bool :=
  decide (v.length ≤ s.length) && decide (s.drop (s.length - v.length) = v)

/-- The include-guard token computed by `main` (lines 201-208): file name of
the output, control characters stripped, punctuation replaced by `_`, spaces
replaced by `_`, then `_` + uppercase namespace + `_` + uppercase result + `_`. -/
def derive_guard (output ns : List Nat) : List Nat :=
  let d0 := file_name output
  let d1 := replaceIf iscntrl [] d0
  let d2 := replaceIf ispunct [95] d1
  let d3 := replaceChar 32 [95] d2
  [95] ++ to_upper ns ++ [95] ++ to_upper d3 ++ [95]

/-- One-pass character cleanup following the words of the specification:
control characters are removed, punctuation characters and spaces become `_`. -/
def cleanSpec (f : List Nat) : List Nat :=
  (f.map (fun c => if iscntrl c then [] else if ispunct c || c == 32 then [95] else [c])).flatten

/-- Guard token following the words of the specification: concatenate
`_{NAMESPACE}_{FILENAME}_` from the uppercased namespace and the uppercased
cleaned base file name of the output path. -/
def derive_guard_spec (output ns : List Nat) : List Nat :=
  [95] ++ to_upper ns ++ [95] ++ to_upper (cleanSpec (file_name output)) ++ [95]

/-- Default for `--name` (line 144). -/
def default_name : List Nat := strBytes "resources"

/-- Default for `--namespace` (line 143). -/
def default_namespace : List Nat := strBytes "resources"

/-- Default for `--output` (line 145). -/
def default_output : List Nat := strBytes "resources.hpp"

/-- Lines 183-185: an empty `--name` falls back to the default. -/
def resolveName (n : List Nat) : List Nat := if n = [] then default_name else n

/-- Lines 195-197: an empty `--namespace` falls back to the default. -/
def resolveNamespace (n : List Nat) : List Nat :=
  if n = [] then default_namespace else n

/-- Lines 190-193: append `.hpp` unless the name already ends in `.h` or
`.hpp`. -/
def normalizeOut (o : List Nat) : List Nat :=
  if ends_with o (strBytes ".h") || ends_with o (strBytes ".hpp") then o
  else o ++ strBytes ".hpp"

/-- Lines 186-193: empty `--output` falls back to the default, then the
suffix is normalized. -/
def resolveOutput (o : List Nat) : List Nat :=
  normalizeOut (if o = [] then default_output else o)

/-- Decimal digits of `n` in ASCII, with explicit fuel (structural). -/
def decDigits : Nat → Nat → List Nat
  | 0, _ => []
  | fuel + 1, n => if n < 10 then [48 + n] else decDigits fuel (n / 10) ++ [48 + n % 10]

/-- ASCII decimal rendering of a natural number, as `operator<<` prints an
unsigned integer. -/
def natToDec (n : Nat) : List Nat := decDigits (n + 1) n

/-- The inner byte loop (lines 245-247): each `char` of the buffer is
narrowed through `uint8_t` (value mod 256) and printed as an unsigned
decimal followed by a comma. -/
def emitBytes : List Int → List Nat
  | [] => []
  | c :: cs => natToDec ((c % 256).toNat) ++ 44 :: emitBytes cs

/-- One mapping entry (lines 244-248): `    { "alias", { b0,b1,..., } },`. -/
def emitEntry (a : List Nat) (buffer : List Int) : List Nat :=
  strBytes "    \x7b \x22" ++ a ++ strBytes "\x22, \x7b " ++ emitBytes buffer
    ++ strBytes " \x7d \x7d,\n"

/-- The failure line printed for an unreadable resource (lines 250-251). -/
def failOpenLine (p : List Nat) : List Nat :=
  strBytes "[FAIL] Can\x27t open file \x27" ++ p ++ strBytes "\x27"

/-- The final status line (line 263). -/
def okLine (output : List Nat) : List Nat :=
  strBytes "[ OK ] File \x27" ++ output ++ strBytes "\x27 generated"

/-- The fatal directory-creation failure line (lines 213-214). -/
def failDirLine (dir output : List Nat) : List Nat :=
  strBytes "[FAIL] Can\x27t create directory \x27" ++ dir
    ++ strBytes "\x27 for output file \x27" ++ output ++ strBytes "\x27"

/-- The resource loop (lines 239-253): readable entries are emitted in
order, unreadable ones produce a failure line and are skipped. Returns the
emitted body and the ordered failure lines. -/
def emitLoop (files : List Nat → Option (List Int)) :
    List (List Nat × List Nat) → List Nat × List (List Nat)
  | [] => ([], [])
  | (p, a) :: rest =>
    let r := emitLoop files rest
    match files p with
    | some buf => (emitEntry a buf ++ r.1, r.2)
    | none => (r.1, failOpenLine p :: r.2)

/-- The full text written to the output stream (lines 220-259). -/
def headerContent (guards define ns name body : List Nat) : List Nat :=
  strBytes "// this file is auto-generated by the cpp-generes program\n"
    ++ strBytes "// see https://github.com/rue-ryuzaki/cpp-generes\n"
    ++ strBytes "\n"
    ++ (if guards = strBytes "define" then
          strBytes "#ifndef " ++ define ++ strBytes "\n#define " ++ define ++ strBytes "\n"
        else strBytes "#pragma once\n")
    ++ strBytes "\n#include <cstdint>\n#include <string>\n#include <vector>\n"
    ++ strBytes "#include <unordered_map>\n\n"
    ++ strBytes "namespace " ++ ns ++ strBytes " \x7b\n"
    ++ strBytes "static std::unordered_map<std::string, std::vector<uint8_t> > const "
    ++ name ++ strBytes " =\n\x7b\n"
    ++ body
    ++ strBytes "\x7d;\n"
    ++ strBytes "\x7d  // namespace " ++ ns ++ strBytes "\n"
    ++ (if guards = strBytes "define" then strBytes "\n#endif  // " ++ define ++ strBytes "\n"
        else [])

/-- Which preprocessor branch of the source is compiled: the C++17 branch
uses `std::filesystem`, the legacy branch uses `stat`/`system("mkdir -p")`. -/
inductive BuildMode
  | cpp17
  | legacy

/-- Abstract system state: readable files and their contents, existing
directories, and which directory creations fail for external reasons
(permissions and the like). -/
structure Sys where
  files : List Nat → Option (List Int)
  dirs : List (List Nat)
  mkdirFails : List Nat → Bool

/-- `detail::_is_directory_exists`. -/
def is_directory_exists (sys : Sys) (d : List Nat) : Bool := sys.dirs.contains d

/-- All ancestors of a path including itself, by repeatedly taking the
directory name; the fuel is an upper bound on the chain length. -/
def ancestorsAux : Nat → List Nat → List (List Nat)
  | 0, _ => []
  | fuel + 1, p => if p = [] then [] else p :: ancestorsAux fuel (directory_name p)

/-- A path together with all its ancestor directories. -/
def selfAndAncestors (p : List Nat) : List (List Nat) := ancestorsAux (p.length + 1) p

/-- How one call of `detail::_make_directory` ends: the directory is
created, the call returns false, or an exception leaves the call. -/
inductive MkdirResult
  | created
  | failed
  | thrown
deriving DecidableEq

/-- `detail::_make_directory` on a directory that does not yet exist (the
caller checks `_is_directory_exists` first, line 211). The C++17 branch
calls the throwing overload of `std::filesystem::create_directory`: it
creates a single level, returns false without throwing only when the
target already exists as a directory (excluded here), and otherwise -- a
missing parent or any external failure -- throws
`std::filesystem::filesystem_error`, which `main` never catches. The
legacy branch runs `mkdir -p`, which creates intermediate directories and
reports external failure through the exit status of `system`. -/
def make_directory (mode : BuildMode) (sys : Sys) (d : List Nat) : MkdirResult :=
  match mode with
  | .cpp17 =>
    if sys.mkdirFails d then .thrown
    else if directory_name d = [] ∨ directory_name d = [46]
        ∨ is_directory_exists sys (directory_name d) = true then .created
    else .thrown
  | .legacy => if sys.mkdirFails d then .failed else .created

/-- The directories that exist after a successful `_make_directory`. -/
def dirs_after_make (mode : BuildMode) (sys : Sys) (d : List Nat) : List (List Nat) :=
  match mode with
  | .cpp17 => d :: sys.dirs
  | .legacy => selfAndAncestors d ++ sys.dirs

/-- Outcome of the directory step (lines 210-217): proceed to writing with
the given set of directories, take the graceful failure branch printing the
diagnostic of lines 212-216, or terminate on an uncaught
`filesystem_error` before that branch is reached. -/
inductive DirStep
  | proceed (dirs2 : List (List Nat))
  | fail
  | thrown

/-- Whether the directory step lets the run proceed to writing. -/
def DirStep.isProceed : DirStep → Bool
  | .proceed _ => true
  | _ => false

/-- Lines 210-217: when the output directory is nonempty, not `.` and does
not exist, try to create it. -/
def dirStepResult (mode : BuildMode) (sys : Sys) (output : List Nat) : DirStep :=
  let dir := directory_name output
  if dir = [] ∨ dir = [46] ∨ is_directory_exists sys dir = true then .proceed sys.dirs
  else
    match make_directory mode sys dir with
    | .created => .proceed (dirs_after_make mode sys dir)
    | .failed => .fail
    | .thrown => .thrown

/-- The directory step does not abort the run. -/
def dirStepOk (mode : BuildMode) (sys : Sys) (outArg : List Nat) : Bool :=
  (dirStepResult mode sys (resolveOutput outArg)).isProceed

/-- Observable outcome of one invocation: exit status, resolved output
path, the bytes written to the output file (`none` when the stream could
not be opened or the run aborted first), the stdout and stderr lines
printed by the program itself, the directories existing afterwards, and
whether the run ended in `std::terminate` from an uncaught exception.
For a terminated run `exitCode` is the abnormal status 134 (128 + SIGABRT)
a shell observes, not a value returned from `main`, and `stderrLines` is
empty: the terminate notice comes from the C++ runtime, not from any
output statement of the program. -/
structure RunResult where
  exitCode : Nat
  output : List Nat
  written : Option (List Nat)
  stdoutLines : List (List Nat)
  stderrLines : List (List Nat)
  dirsAfter : List (List Nat)
  terminated : Bool

/-- `main` after argument parsing (lines 181-265). `openOk` tells whether
the output stream opens; the source never checks it, and a failed stream
swallows all writes. -/
def run (mode : BuildMode) (sys : Sys) (openOk : Bool)
    (guards nameArg nsArg outArg : List Nat)
    (vec : List (List Nat × List Nat)) : RunResult :=
  let name := resolveName nameArg
  let output := resolveOutput outArg
  let ns := resolveNamespace nsArg
  let define := derive_guard output ns
  match dirStepResult mode sys output with
  | .fail =>
    ⟨1, output, none, [], [failDirLine (directory_name output) output], sys.dirs, false⟩
  | .thrown => ⟨134, output, none, [], [], sys.dirs, true⟩
  | .proceed dirs2 =>
    let el := emitLoop sys.files vec
    ⟨0, output,
      if openOk then some (headerContent guards define ns name el.1) else none,
      el.2 ++ [okLine output], [], dirs2, false⟩

/-- A system with no readable files, no directories and no external mkdir
failures. -/
def sysEmpty : Sys := ⟨fun _ => none, [], fun _ => false⟩

/-- A system in which only `b.bin` is readable, with bytes 0, 1, 255. -/
def sysB : Sys :=
  ⟨fun p => if p = strBytes "b.bin" then some [0, 1, 255] else none, [], fun _ => false⟩

/-- Like `sysB` but with an extra unrelated readable file `junk.bin`. -/
def sysJunk : Sys :=
  ⟨fun p =>
    if p = strBytes "b.bin" then some [0, 1, 255]
    else if p = strBytes "junk.bin" then some [9] else none,
   [], fun _ => false⟩

/-- A system in which only the directory `newdir` exists. -/
def sysNewdir : Sys := ⟨fun _ => none, [strBytes "newdir"], fun _ => false⟩

/-- A system in which every directory creation fails externally, as on a
read-only filesystem. -/
def sysRO : Sys := ⟨fun _ => none, [], fun _ => true⟩

/-- Two resource entries: `a.bin:A` (unreadable in `sysB`) and `b.bin:B`. -/
def vecAB : List (List Nat × List Nat) :=
  [(strBytes "a.bin", strBytes "A"), (strBytes "b.bin", strBytes "B")]

/-- The `define` guard style argument. -/
def gDefine : List Nat := strBytes "define"

/-- An output path two directory levels deep. -/
def outSub : List Nat := strBytes "newdir/sub/out.hpp"

theorem replaceIf_append (f : Nat → Bool) (v a b : List Nat) :
    replaceIf f v (a ++ b) = replaceIf f v a ++ replaceIf f v b := by
  induction a with
  | nil => rfl
  | cons c cs ih => simp [replaceIf, ih]

theorem replaceChar_append (old : Nat) (v a b : List Nat) :
    replaceChar old v (a ++ b) = replaceChar old v a ++ replaceChar old v b := by
  induction a with
  | nil => rfl
  | cons c cs ih => simp [replaceChar, ih]

theorem clean_eq (l : List Nat) :
    replaceChar 32 [95] (replaceIf ispunct [95] (replaceIf iscntrl [] l))
      = cleanSpec l := by
  induction l with
  | nil => rfl
  | cons c cs ih =>
    show replaceChar 32 [95] (replaceIf ispunct [95]
        ((if iscntrl c then [] else [c]) ++ replaceIf iscntrl [] cs)) = _
    rw [replaceIf_append, replaceChar_append, ih]
    have hhd : replaceChar 32 [95] (replaceIf ispunct [95]
        (if iscntrl c then [] else [c]))
        = (if iscntrl c then [] else if ispunct c || c == 32 then [95] else [c]) := by
      by_cases h1 : iscntrl c
      · simp [h1, replaceIf, replaceChar]
      · by_cases h2 : ispunct c
        · simp [h1, h2, replaceIf, replaceChar]
        · by_cases h3 : c = 32
          · subst h3; simp [h1, h2, replaceIf, replaceChar]
          · simp [h1, h2, h3, replaceIf, replaceChar]
    rw [hhd]
    simp [cleanSpec]

theorem emitBytes_flatten (buffer : List Int) :
    emitBytes buffer
      = ((buffer.map fun c => natToDec ((c % 256).toNat) ++ [44])).flatten := by
  induction buffer with
  | nil => rfl
  | cons c cs ih => simp [emitBytes, ih]

theorem decDigits_digit (fuel : Nat) :
    ∀ n ch, ch ∈ decDigits fuel n → 48 ≤ ch ∧ ch ≤ 57 := by
  induction fuel with
  | zero => intro n ch h; simp [decDigits] at h
  | succ f ih =>
    intro n ch h
    by_cases hn : n < 10
    · simp [decDigits, hn] at h
      omega
    · simp [decDigits, hn] at h
      rcases h with h | h
      · exact ih _ _ h
      · have : n % 10 < 10 := Nat.mod_lt _ (by omega)
        omega

theorem natToDec_digit (n ch : Nat) (h : ch ∈ natToDec n) : 48 ≤ ch ∧ ch ≤ 57 :=
  decDigits_digit _ _ _ h

theorem emitLoop_eq (f : List Nat → Option (List Int))
    (v : List (List Nat × List Nat)) :
    emitLoop f v =
      ((v.filterMap fun pa => (f pa.1).map fun b => emitEntry pa.2 b).flatten,
       (v.filter fun pa => (f pa.1).isNone).map fun pa => failOpenLine pa.1) := by
  induction v with
  | nil => rfl
  | cons pa rest ih =>
    obtain ⟨p, a⟩ := pa
    simp only [emitLoop, ih]
    cases h : f p <;> simp [h]

theorem emitLoop_congr (f1 f2 : List Nat → Option (List Int))
    (v : List (List Nat × List Nat)) (hf : ∀ pa ∈ v, f1 pa.1 = f2 pa.1) :
    emitLoop f1 v = emitLoop f2 v := by
  induction v with
  | nil => rfl
  | cons pa rest ih =>
    obtain ⟨p, a⟩ := pa
    have hp : f1 p = f2 p := hf (p, a) (by simp)
    have hr : emitLoop f1 rest = emitLoop f2 rest :=
      ih fun q hq => hf q (by simp [hq])
    simp only [emitLoop, hp, hr]

theorem DirStep.exists_of_isProceed {s : DirStep} (h : s.isProceed = true) :
    ∃ ds, s = DirStep.proceed ds := by
  cases s with
  | proceed ds => exact ⟨ds, rfl⟩
  | fail => simp [DirStep.isProceed] at h
  | thrown => simp [DirStep.isProceed] at h

theorem run_dirProceed (mode : BuildMode) (sys : Sys) (openOk : Bool)
    (g nm ns out : List Nat) (vec : List (List Nat × List Nat))
    (ds : List (List Nat))
    (h : dirStepResult mode sys (resolveOutput out) = DirStep.proceed ds) :
    run mode sys openOk g nm ns out vec
      = ⟨0, resolveOutput out,
          if openOk then
            some (headerContent g
              (derive_guard (resolveOutput out) (resolveNamespace ns))
              (resolveNamespace ns) (resolveName nm) (emitLoop sys.files vec).1)
          else none,
          (emitLoop sys.files vec).2 ++ [okLine (resolveOutput out)], [], ds, false⟩ := by
  simp only [run, h]

theorem run_dirFail (mode : BuildMode) (sys : Sys) (openOk : Bool)
    (g nm ns out : List Nat) (vec : List (List Nat × List Nat))
    (h : dirStepResult mode sys (resolveOutput out) = DirStep.fail) :
    run mode sys openOk g nm ns out vec
      = ⟨1, resolveOutput out, none, [],
          [failDirLine (directory_name (resolveOutput out)) (resolveOutput out)],
          sys.dirs, false⟩ := by
  simp only [run, h]

theorem run_dirThrown (mode : BuildMode) (sys : Sys) (openOk : Bool)
    (g nm ns out : List Nat) (vec : List (List Nat × List Nat))
    (h : dirStepResult mode sys (resolveOutput out) = DirStep.thrown) :
    run mode sys openOk g nm ns out vec
      = ⟨134, resolveOutput out, none, [], [], sys.dirs, true⟩ := by
  simp only [run, h]

/-- Claim C1: for every output path and namespace, the include-guard token
equals `_` + uppercase(namespace) + `_` + uppercase(f) + `_`, where f is the
base file name of the output with control characters removed and every
punctuation character and space replaced by `_`; for `out/res.hpp` and
namespace `resources` the token is `_RESOURCES_RES_HPP_`. -/
theorem c1_guard_token :
    (∀ output ns, derive_guard output ns = derive_guard_spec output ns) ∧
    derive_guard (strBytes "out/res.hpp") (strBytes "resources")
      = strBytes "_RESOURCES_RES_HPP_" := by
  constructor
  · intro output ns
    show [95] ++ to_upper ns ++ [95]
        ++ to_upper (replaceChar 32 [95] (replaceIf ispunct [95]
              (replaceIf iscntrl [] (file_name output)))) ++ [95]
      = derive_guard_spec output ns
    rw [clean_eq]
    rfl
  · decide

/-- Claim C2: each readable resource produces one mapping entry keyed by its
alias, whose value list renders every byte of the file, in order, as an
unsigned decimal literal followed by a comma (trailing comma included);
bytes `[0,1,255]` with alias `blob` render exactly as `0,1,255,`. -/
theorem c2_entry_rendering :
    (∀ a buffer, emitEntry a buffer
        = strBytes "    \x7b \x22" ++ a ++ strBytes "\x22, \x7b "
          ++ ((buffer.map fun c => natToDec ((c % 256).toNat) ++ [44])).flatten
          ++ strBytes " \x7d \x7d,\n") ∧
    emitBytes [0, 1, 255] = strBytes "0,1,255," ∧
    emitEntry (strBytes "blob") [0, 1, 255]
      = strBytes "    \x7b \x22blob\x22, \x7b 0,1,255, \x7d \x7d,\n" := by
  refine ⟨fun a buffer => ?_, by decide, by decide⟩
  simp only [emitEntry, emitBytes_flatten]

/-- Claim C6: the resolved output path is unchanged when it already ends in
`.h` or `.hpp` and otherwise gets `.hpp` appended; `build/data` resolves to
a path ending in `.hpp` and `data.h` is unchanged. -/
theorem c6_output_suffix :
    (∀ s,
      (ends_with s (strBytes ".h") = true ∨ ends_with s (strBytes ".hpp") = true →
        normalizeOut s = s) ∧
      (ends_with s (strBytes ".h") = false → ends_with s (strBytes ".hpp") = false →
        normalizeOut s = s ++ strBytes ".hpp")) ∧
    (∀ s, s ≠ [] → resolveOutput s = normalizeOut s) ∧
    ends_with (resolveOutput (strBytes "build/data")) (strBytes ".hpp") = true ∧
    resolveOutput (strBytes "data.h") = strBytes "data.h" := by
  refine ⟨fun s => ⟨?_, ?_⟩, fun s hs => ?_, by decide, by decide⟩
  · intro h; rcases h with h | h <;> simp [normalizeOut, h]
  · intro h1 h2; simp [normalizeOut, h1, h2]
  · simp [resolveOutput, hs]

/-- Witness for C6: `a.h` is unchanged, `build/data` gets `.hpp` appended,
and resolution of a nonempty argument is plain normalization. -/
theorem c6_output_suffix_w :
    normalizeOut (strBytes "a.h") = strBytes "a.h" ∧
    normalizeOut (strBytes "build/data") = strBytes "build/data" ++ strBytes ".hpp" ∧
    resolveOutput (strBytes "x") = normalizeOut (strBytes "x") :=
  ⟨(c6_output_suffix.1 (strBytes "a.h")).1 (Or.inl (by decide)),
   (c6_output_suffix.1 (strBytes "build/data")).2 (by decide) (by decide),
   c6_output_suffix.2.1 (strBytes "x") (by decide)⟩

/-- Claim C7: empty `--name`, `--namespace` and `--output` resolve to the
defaults `resources`, `resources` and `resources.hpp`, and a run given the
empty values is identical to a run given the defaults, so no error arises. -/
theorem c7_empty_defaults :
    resolveName [] = strBytes "resources" ∧
    resolveNamespace [] = strBytes "resources" ∧
    resolveOutput [] = strBytes "resources.hpp" ∧
    (∀ mode sys openOk g vec,
      run mode sys openOk g [] [] [] vec
        = run mode sys openOk g default_name default_namespace default_output vec) := by
  refine ⟨by decide, by decide, by decide, fun mode sys openOk g vec => ?_⟩
  have h1 : resolveName [] = resolveName default_name := by decide
  have h2 : resolveNamespace [] = resolveNamespace default_namespace := by decide
  have h3 : resolveOutput [] = resolveOutput default_output := by decide
  simp only [run, h1, h2, h3]

/-- Claim C10: every literal in the emitted byte list is in the range 0..255
because each char is narrowed through an unsigned 8-bit value mod 256; the
emitted text consists of exactly those values in decimal, and every emitted
character is a digit or a comma, so no minus sign ever appears. -/
theorem c10_byte_range (buffer : List Int) :
    (∀ n ∈ buffer.map (fun c => (c % 256).toNat), n < 256) ∧
    emitBytes buffer
      = ((buffer.map fun c => (c % 256).toNat).map fun n => natToDec n ++ [44]).flatten ∧
    (∀ ch ∈ emitBytes buffer, ch = 44 ∨ (48 ≤ ch ∧ ch ≤ 57)) := by
  refine ⟨?_, ?_, ?_⟩
  · intro n hn
    simp only [List.mem_map] at hn
    obtain ⟨c, _, rfl⟩ := hn
    have h1 : (0 : Int) ≤ c % 256 := Int.emod_nonneg c (by norm_num)
    have h2 : c % 256 < 256 := Int.emod_lt_of_pos c (by norm_num)
    omega
  · rw [emitBytes_flatten, List.map_map]
    rfl
  · intro ch hch
    induction buffer with
    | nil => simp [emitBytes] at hch
    | cons c cs ih =>
      simp only [emitBytes, List.mem_append, List.mem_cons] at hch
      rcases hch with h | h | h
      · exact Or.inr (natToDec_digit _ _ h)
      · exact Or.inl h
      · exact ih h

/-- Witness for C10: the char -1 is rendered as 255, which is below 256,
and the first character of its rendering is the digit 2. -/
theorem c10_byte_range_w :
    ((-1 : Int) % 256).toNat < 256 ∧ (50 = 44 ∨ (48 ≤ 50 ∧ 50 ≤ 57)) :=
  ⟨(c10_byte_range [-1]).1 _ (by decide), (c10_byte_range [-1]).2.2 50 (by decide)⟩

/-- Claim C3: an unreadable resource does not abort the run: the entry is
omitted from the mapping, one failure line is printed for it, every other
entry is still processed, and the exit code is 0. -/
theorem c3_partial_failure (mode : BuildMode) (sys : Sys) (openOk : Bool)
    (g nm ns out p a : List Nat) (vec : List (List Nat × List Nat))
    (hok : dirStepOk mode sys out = true)
    (hmem : (p, a) ∈ vec) (hnone : sys.files p = none) :
    (run mode sys openOk g nm ns out vec).exitCode = 0 ∧
    failOpenLine p ∈ (run mode sys openOk g nm ns out vec).stdoutLines ∧
    (run mode sys openOk g nm ns out vec).stdoutLines
      = ((vec.filter fun pa => (sys.files pa.1).isNone).map fun pa => failOpenLine pa.1)
        ++ [okLine (resolveOutput out)] ∧
    (openOk = true →
      (run mode sys openOk g nm ns out vec).written
        = some (headerContent g
            (derive_guard (resolveOutput out) (resolveNamespace ns))
            (resolveNamespace ns) (resolveName nm)
            ((vec.filterMap fun pa =>
                (sys.files pa.1).map fun b => emitEntry pa.2 b).flatten))) := by
  simp only [dirStepOk] at hok
  obtain ⟨ds, hds⟩ := DirStep.exists_of_isProceed hok
  rw [run_dirProceed mode sys openOk g nm ns out vec ds hds]
  refine ⟨rfl, ?_, ?_, ?_⟩
  · simp only [emitLoop_eq]
    exact List.mem_append_left _
      (List.mem_map_of_mem _ (List.mem_filter.mpr ⟨hmem, by simp [hnone]⟩))
  · simp [emitLoop_eq]
  · intro ho; subst ho; simp [emitLoop_eq]

/-- Witness for C3: with `a.bin` unreadable and `b.bin` readable, the run
exits 0, prints the failure line for `a.bin`, and the written header holds
only the `b.bin` entry. -/
theorem c3_partial_failure_w :
    (run .cpp17 sysB true gDefine [] [] [] vecAB).exitCode = 0 ∧
    failOpenLine (strBytes "a.bin")
      ∈ (run .cpp17 sysB true gDefine [] [] [] vecAB).stdoutLines ∧
    (run .cpp17 sysB true gDefine [] [] [] vecAB).stdoutLines
      = ((vecAB.filter fun pa => (sysB.files pa.1).isNone).map fun pa => failOpenLine pa.1)
        ++ [okLine (resolveOutput [])] ∧
    (true = true →
      (run .cpp17 sysB true gDefine [] [] [] vecAB).written
        = some (headerContent gDefine
            (derive_guard (resolveOutput []) (resolveNamespace []))
            (resolveNamespace []) (resolveName [])
            ((vecAB.filterMap fun pa =>
                (sysB.files pa.1).map fun b => emitEntry pa.2 b).flatten))) :=
  c3_partial_failure .cpp17 sysB true gDefine [] [] [] (strBytes "a.bin") (strBytes "A")
    vecAB (by decide) (by decide) (by decide)

/-- Counterexample for C4: with no directories existing, the C++17 build
does not create the chain for `newdir/sub/out.hpp`: creating `newdir/sub`
throws while `newdir` is missing, the uncaught exception terminates the
program abnormally and nothing is written. -/
theorem c4_counterexample :
    (run .cpp17 sysEmpty true gDefine [] [] outSub []).written = none ∧
    (run .cpp17 sysEmpty true gDefine [] [] outSub []).terminated = true ∧
    (run .cpp17 sysEmpty true gDefine [] [] outSub []).exitCode ≠ 0 := by
  decide

/-- Claim C4 amended: when the parent directory of the normalized output
path is missing and no external mkdir failure occurs, the legacy build
creates the whole chain recursively (mkdir -p) and the file is written; the
C++17 build creates only the final component, so the directory is created
and the file written exactly when the intermediate directories already
exist. -/
theorem c4_directory_creation :
    (∀ (sys : Sys) (openOk : Bool) (g nm ns out : List Nat)
        (vec : List (List Nat × List Nat)),
      ¬(directory_name (resolveOutput out) = []
          ∨ directory_name (resolveOutput out) = [46]
          ∨ is_directory_exists sys (directory_name (resolveOutput out)) = true) →
      sys.mkdirFails (directory_name (resolveOutput out)) = false →
      (run .legacy sys openOk g nm ns out vec).exitCode = 0 ∧
      (run .legacy sys openOk g nm ns out vec).dirsAfter
        = selfAndAncestors (directory_name (resolveOutput out)) ++ sys.dirs ∧
      (run .legacy sys openOk g nm ns out vec).written.isSome = openOk) ∧
    (∀ (sys : Sys) (openOk : Bool) (g nm ns out : List Nat)
        (vec : List (List Nat × List Nat)),
      ¬(directory_name (resolveOutput out) = []
          ∨ directory_name (resolveOutput out) = [46]
          ∨ is_directory_exists sys (directory_name (resolveOutput out)) = true) →
      sys.mkdirFails (directory_name (resolveOutput out)) = false →
      (directory_name (directory_name (resolveOutput out)) = []
        ∨ directory_name (directory_name (resolveOutput out)) = [46]
        ∨ is_directory_exists sys (directory_name (directory_name (resolveOutput out))) = true) →
      (run .cpp17 sys openOk g nm ns out vec).exitCode = 0 ∧
      (run .cpp17 sys openOk g nm ns out vec).dirsAfter
        = directory_name (resolveOutput out) :: sys.dirs ∧
      (run .cpp17 sys openOk g nm ns out vec).written.isSome = openOk) := by
  constructor
  · intro sys openOk g nm ns out vec h1 hmk
    have hds : dirStepResult .legacy sys (resolveOutput out)
        = DirStep.proceed
            (selfAndAncestors (directory_name (resolveOutput out)) ++ sys.dirs) := by
      simp only [dirStepResult, make_directory, dirs_after_make]
      rw [if_neg h1]
      simp [hmk]
    rw [run_dirProceed _ _ _ _ _ _ _ _ _ hds]
    refine ⟨rfl, rfl, ?_⟩
    cases openOk <;> rfl
  · intro sys openOk g nm ns out vec h1 hmk h3
    have hds : dirStepResult .cpp17 sys (resolveOutput out)
        = DirStep.proceed (directory_name (resolveOutput out) :: sys.dirs) := by
      simp only [dirStepResult, make_directory, dirs_after_make]
      rw [if_neg h1]
      rcases h3 with h | h | h <;> simp [hmk, h]
    rw [run_dirProceed _ _ _ _ _ _ _ _ _ hds]
    refine ⟨rfl, rfl, ?_⟩
    cases openOk <;> rfl

/-- Witness for C4 amended: the legacy build creates both `newdir` and
`newdir/sub` from nothing; the C++17 build creates `newdir/sub` when
`newdir` already exists; in both cases the file is written. -/
theorem c4_directory_creation_w :
    ((run .legacy sysEmpty true gDefine [] [] outSub []).exitCode = 0 ∧
     (run .legacy sysEmpty true gDefine [] [] outSub []).dirsAfter
       = selfAndAncestors (directory_name (resolveOutput outSub)) ++ sysEmpty.dirs ∧
     (run .legacy sysEmpty true gDefine [] [] outSub []).written.isSome = true) ∧
    ((run .cpp17 sysNewdir true gDefine [] [] outSub []).exitCode = 0 ∧
     (run .cpp17 sysNewdir true gDefine [] [] outSub []).dirsAfter
       = directory_name (resolveOutput outSub) :: sysNewdir.dirs ∧
     (run .cpp17 sysNewdir true gDefine [] [] outSub []).written.isSome = true) :=
  ⟨c4_directory_creation.1 sysEmpty true gDefine [] [] outSub [] (by decide) (by decide),
   c4_directory_creation.2 sysNewdir true gDefine [] [] outSub []
     (by decide) (by decide) (by decide)⟩

/-- Counterexample for C5: with the output stream failing to open, the run
is not fatal: it exits 0, prints the success line, reports nothing on
stderr, and simply writes no bytes. -/
theorem c5_counterexample :
    (run .cpp17 sysEmpty false gDefine [] [] [] []).exitCode = 0 ∧
    okLine (strBytes "resources.hpp")
      ∈ (run .cpp17 sysEmpty false gDefine [] [] [] []).stdoutLines ∧
    (run .cpp17 sysEmpty false gDefine [] [] [] []).stderrLines = [] ∧
    (run .cpp17 sysEmpty false gDefine [] [] [] []).written = none := by
  decide

/-- Claim C5 amended: failure to open the output file is not detected: the
source never checks the stream, so whenever the directory step succeeds the
run still prints the success status line, reports no error, exits 0, and
only the output bytes are lost. -/
theorem c5_open_failure (mode : BuildMode) (sys : Sys)
    (g nm ns out : List Nat) (vec : List (List Nat × List Nat))
    (hok : dirStepOk mode sys out = true) :
    (run mode sys false g nm ns out vec).exitCode = 0 ∧
    okLine (resolveOutput out) ∈ (run mode sys false g nm ns out vec).stdoutLines ∧
    (run mode sys false g nm ns out vec).stderrLines = [] ∧
    (run mode sys false g nm ns out vec).written = none := by
  simp only [dirStepOk] at hok
  obtain ⟨ds, hds⟩ := DirStep.exists_of_isProceed hok
  rw [run_dirProceed mode sys false g nm ns out vec ds hds]
  exact ⟨rfl, List.mem_append_right _ (by simp), rfl, rfl⟩

/-- Witness for C5 amended at a concrete system and resource list. -/
theorem c5_open_failure_w :
    (run .cpp17 sysB false gDefine [] [] [] vecAB).exitCode = 0 ∧
    okLine (resolveOutput []) ∈ (run .cpp17 sysB false gDefine [] [] [] vecAB).stdoutLines ∧
    (run .cpp17 sysB false gDefine [] [] [] vecAB).stderrLines = [] ∧
    (run .cpp17 sysB false gDefine [] [] [] vecAB).written = none :=
  c5_open_failure .cpp17 sysB gDefine [] [] [] vecAB (by decide)

/-- Counterexample for C8: in the C++17 build a missing, uncreatable
parent directory does not produce the claimed diagnostic: the throwing
`create_directory` terminates the program before lines 212-216 execute, so
no line naming the intended output file is emitted and the exit status is
an abort, not a return from `main`. -/
theorem c8_counterexample :
    (run .cpp17 sysEmpty true gDefine [] [] outSub []).terminated = true ∧
    failDirLine (directory_name (resolveOutput outSub)) (resolveOutput outSub)
      ∉ (run .cpp17 sysEmpty true gDefine [] [] outSub []).stderrLines ∧
    (run .cpp17 sysEmpty true gDefine [] [] outSub []).written = none := by
  decide

/-- Claim C8 amended: a missing, uncreatable parent directory aborts the
run before any output is written in both builds; the diagnostic naming
both the directory and the intended output file together with exit code 1
is produced by the legacy build, while the C++17 build terminates on the
uncaught `filesystem_error` before that diagnostic is reached, printing no
diagnostic of its own. -/
theorem c8_dir_fatal :
    (∀ (sys : Sys) (openOk : Bool) (g nm ns out : List Nat)
        (vec : List (List Nat × List Nat)),
      ¬(directory_name (resolveOutput out) = []
          ∨ directory_name (resolveOutput out) = [46]
          ∨ is_directory_exists sys (directory_name (resolveOutput out)) = true) →
      sys.mkdirFails (directory_name (resolveOutput out)) = true →
      (run .legacy sys openOk g nm ns out vec).exitCode = 1 ∧
      (run .legacy sys openOk g nm ns out vec).written = none ∧
      (run .legacy sys openOk g nm ns out vec).stdoutLines = [] ∧
      (run .legacy sys openOk g nm ns out vec).stderrLines
        = [failDirLine (directory_name (resolveOutput out)) (resolveOutput out)] ∧
      List.IsInfix (directory_name (resolveOutput out))
        (failDirLine (directory_name (resolveOutput out)) (resolveOutput out)) ∧
      List.IsInfix (resolveOutput out)
        (failDirLine (directory_name (resolveOutput out)) (resolveOutput out))) ∧
    (∀ (sys : Sys) (openOk : Bool) (g nm ns out : List Nat)
        (vec : List (List Nat × List Nat)),
      ¬(directory_name (resolveOutput out) = []
          ∨ directory_name (resolveOutput out) = [46]
          ∨ is_directory_exists sys (directory_name (resolveOutput out)) = true) →
      make_directory .cpp17 sys (directory_name (resolveOutput out)) = .thrown →
      (run .cpp17 sys openOk g nm ns out vec).terminated = true ∧
      (run .cpp17 sys openOk g nm ns out vec).written = none ∧
      (run .cpp17 sys openOk g nm ns out vec).stdoutLines = [] ∧
      (run .cpp17 sys openOk g nm ns out vec).exitCode ≠ 0 ∧
      failDirLine (directory_name (resolveOutput out)) (resolveOutput out)
        ∉ (run .cpp17 sys openOk g nm ns out vec).stderrLines) := by
  constructor
  · intro sys openOk g nm ns out vec h1 hmk
    have hds : dirStepResult .legacy sys (resolveOutput out) = DirStep.fail := by
      simp only [dirStepResult, make_directory]
      rw [if_neg h1]
      simp [hmk]
    rw [run_dirFail _ _ _ _ _ _ _ _ hds]
    refine ⟨rfl, rfl, rfl, rfl, ?_, ?_⟩
    · exact ⟨strBytes "[FAIL] Can\x27t create directory \x27",
        strBytes "\x27 for output file \x27" ++ resolveOutput out ++ strBytes "\x27",
        by simp [failDirLine]⟩
    · exact ⟨strBytes "[FAIL] Can\x27t create directory \x27"
          ++ directory_name (resolveOutput out) ++ strBytes "\x27 for output file \x27",
        strBytes "\x27",
        by simp [failDirLine]⟩
  · intro sys openOk g nm ns out vec h1 hmk
    have hds : dirStepResult .cpp17 sys (resolveOutput out) = DirStep.thrown := by
      simp only [dirStepResult]
      rw [if_neg h1, hmk]
    rw [run_dirThrown _ _ _ _ _ _ _ _ hds]
    refine ⟨rfl, rfl, rfl, ?_, ?_⟩
    · show (134 : Nat) ≠ 0
      decide
    · simp

/-- Witness for C8 amended: a read-only filesystem in the legacy build
yields the diagnostic line and exit 1; a missing `newdir` in the C++17
build terminates the run without any diagnostic. -/
theorem c8_dir_fatal_w :
    ((run .legacy sysRO true gDefine [] [] outSub []).exitCode = 1 ∧
     (run .legacy sysRO true gDefine [] [] outSub []).written = none ∧
     (run .legacy sysRO true gDefine [] [] outSub []).stdoutLines = [] ∧
     (run .legacy sysRO true gDefine [] [] outSub []).stderrLines
       = [failDirLine (directory_name (resolveOutput outSub)) (resolveOutput outSub)] ∧
     List.IsInfix (directory_name (resolveOutput outSub))
       (failDirLine (directory_name (resolveOutput outSub)) (resolveOutput outSub)) ∧
     List.IsInfix (resolveOutput outSub)
       (failDirLine (directory_name (resolveOutput outSub)) (resolveOutput outSub))) ∧
    ((run .cpp17 sysEmpty true gDefine [] [] outSub []).terminated = true ∧
     (run .cpp17 sysEmpty true gDefine [] [] outSub []).written = none ∧
     (run .cpp17 sysEmpty true gDefine [] [] outSub []).stdoutLines = [] ∧
     (run .cpp17 sysEmpty true gDefine [] [] outSub []).exitCode ≠ 0 ∧
     failDirLine (directory_name (resolveOutput outSub)) (resolveOutput outSub)
       ∉ (run .cpp17 sysEmpty true gDefine [] [] outSub []).stderrLines) :=
  ⟨c8_dir_fatal.1 sysRO true gDefine [] [] outSub [] (by decide) (by decide),
   c8_dir_fatal.2 sysEmpty true gDefine [] [] outSub [] (by decide) (by decide)⟩

/-- Claim C9: determinism: two runs with identical arguments, identical
resource contents on the requested paths, and an already existing (or
trivial) output directory produce identical output bytes, stdout lines and
exit codes. -/
theorem c9_deterministic (mode : BuildMode) (sys1 sys2 : Sys) (openOk : Bool)
    (g nm ns out : List Nat) (vec : List (List Nat × List Nat))
    (hdir : directory_name (resolveOutput out) = []
      ∨ directory_name (resolveOutput out) = [46]
      ∨ (is_directory_exists sys1 (directory_name (resolveOutput out)) = true
          ∧ is_directory_exists sys2 (directory_name (resolveOutput out)) = true))
    (hfiles : ∀ pa ∈ vec, sys1.files pa.1 = sys2.files pa.1) :
    (run mode sys1 openOk g nm ns out vec).written
      = (run mode sys2 openOk g nm ns out vec).written ∧
    (run mode sys1 openOk g nm ns out vec).stdoutLines
      = (run mode sys2 openOk g nm ns out vec).stdoutLines ∧
    (run mode sys1 openOk g nm ns out vec).exitCode
      = (run mode sys2 openOk g nm ns out vec).exitCode := by
  have hd1 : dirStepResult mode sys1 (resolveOutput out)
      = DirStep.proceed sys1.dirs := by
    simp only [dirStepResult]
    rcases hdir with h | h | h
    · rw [if_pos (Or.inl h)]
    · rw [if_pos (Or.inr (Or.inl h))]
    · rw [if_pos (Or.inr (Or.inr h.1))]
  have hd2 : dirStepResult mode sys2 (resolveOutput out)
      = DirStep.proceed sys2.dirs := by
    simp only [dirStepResult]
    rcases hdir with h | h | h
    · rw [if_pos (Or.inl h)]
    · rw [if_pos (Or.inr (Or.inl h))]
    · rw [if_pos (Or.inr (Or.inr h.2))]
  rw [run_dirProceed _ _ _ _ _ _ _ _ _ hd1, run_dirProceed _ _ _ _ _ _ _ _ _ hd2,
    emitLoop_congr sys1.files sys2.files vec hfiles]
  exact ⟨rfl, rfl, rfl⟩

/-- Witness for C9: `sysB` and `sysJunk` agree on the two requested paths
and differ on an unrelated file; the two runs coincide observably. -/
theorem c9_deterministic_w :
    (run .cpp17 sysB true gDefine [] [] [] vecAB).written
      = (run .cpp17 sysJunk true gDefine [] [] [] vecAB).written ∧
    (run .cpp17 sysB true gDefine [] [] [] vecAB).stdoutLines
      = (run .cpp17 sysJunk true gDefine [] [] [] vecAB).stdoutLines ∧
    (run .cpp17 sysB true gDefine [] [] [] vecAB).exitCode
      = (run .cpp17 sysJunk true gDefine [] [] [] vecAB).exitCode :=
  c9_deterministic .cpp17 sysB sysJunk true gDefine [] [] [] vecAB
    (by decide) (by decide)
